import Mathlib

/-!
Verification development for the trajectory-evaluation tool
(apps/evaluate_trajectory/evaluate_trajectory.cu).

Scalars are modelled over the rationals. Device kernels and loader
collaborators whose bodies are not part of this source slice are
modelled from the specification; each such definition says so in its
doc comment. Everything else is a direct shallow embedding of the
source file.
-/

namespace EvalTraj

/-- Retention capacity of one observation row (max_cameras, line 126). -/
def max_cameras : Nat := 32

/-- Modelled from the spec: the per-row step of the update_observation_rays
kernel, whose body is not under this source slice. When the camera observes
the sample and the row has spare capacity the ray record (identified here by
the camera index) is appended; otherwise the row is unchanged (capacity
saturation is a silent discard, never an error). -/
def update_row (observes : Bool) (cam : Nat) (row : List Nat) : List Nat :=
  if observes = true ∧ row.length < max_cameras then row ++ [cam] else row

/-- Modelled from the spec: one full parallel pass of update_observation_rays
for a single camera. Each worker owns exactly one sample row, so the pass is
a pointwise map over rows; `vis i c` is the visibility collaborator answering
whether sample `i` is observed by camera `c`. -/
def update_observation_rays (vis : Nat → Nat → Bool) (cam : Nat)
    (rows : Nat → List Nat) : Nat → List Nat :=
  fun i => update_row (vis i cam) cam (rows i)

/-- The sequential camera loop of main (lines 154-164): one kernel pass per
trajectory entry, in trajectory order, with a barrier between passes. -/
def camera_loop (vis : Nat → Nat → Bool) (cams : List Nat)
    (rows : Nat → List Nat) : Nat → List Nat :=
  cams.foldl (fun rs c => update_observation_rays vis c rs) rows

/-- The freshly created observation table: every row empty (line 128-129). -/
def init_rows : Nat → List Nat := fun _ => []

/-- Evolution of a single sample row across the camera loop; `p c` tells
whether this row's sample is observed by camera `c`. -/
def row_loop (p : Nat → Bool) (cams : List Nat) (r : List Nat) : List Nat :=
  cams.foldl (fun r c => update_row (p c) c r) r

/-- Modelled from the spec: the saturating target-weighted rescale applied by
the calculate_func_recons kernel (body not under this source slice): the
weighted score grows with the raw score and saturates at 1 once the raw
score reaches the target quality. -/
def func_recon (target raw : ℚ) : ℚ := min (raw / target) 1

/-- Modelled from the spec: calculate_func_recons maps the rescale over the
whole raw-score array (one worker per sample). -/
def calculate_func_recons (target : ℚ) (recons : List ℚ) : List ℚ :=
  recons.map (func_recon target)

/-- Modelled from the spec: the evaluate_observation_rays kernel reduces each
row to one non-negative raw score. A sample with fewer than two observation
rays cannot be triangulated and keeps the sentinel left in the array by the
null() initialization; `score` is the pluggable ray-set scoring curve. -/
def evaluate_observation_rays (score : List Nat → ℚ) (table : Nat → List Nat)
    (prior : List ℚ) : List ℚ :=
  (List.range prior.length).map
    (fun i => if 2 ≤ (table i).length then max (score (table i)) 0
              else prior.getD i 0)

/-- Modelled from the spec: cacc reduction sum, the parallel (GPU) reduction
path; its result is the exact sum of the array. -/
def reduction_sum (l : List ℚ) : ℚ := l.foldl (fun a b => a + b) 0

/-- Modelled from the spec: cacc reduction min, the parallel (GPU) minimum. -/
def reduction_min (l : List ℚ) : ℚ :=
  match l with
  | [] => 0
  | x :: xs => xs.foldl min x

/-- Modelled from the spec: cacc reduction max, the parallel (GPU) maximum. -/
def reduction_max (l : List ℚ) : ℚ :=
  match l with
  | [] => 0
  | x :: xs => xs.foldl max x

/-- The sequential CPU sum of main, line 204: std accumulate over the host
copy of the weighted scores, seeded with the literal 1.0f from the source. -/
def cpu_accumulate (l : List ℚ) : ℚ := l.foldl (fun a b => a + b) 1

/-- The sequential CPU minimum of main, line 205 (value of min_element on a
nonempty range; the empty case dereferences past the end in the source). -/
def cpu_min (l : List ℚ) : ℚ :=
  match l with
  | [] => 0
  | x :: xs => xs.foldl min x

/-- The sequential CPU maximum of main, line 206. -/
def cpu_max (l : List ℚ) : ℚ :=
  match l with
  | [] => 0
  | x :: xs => xs.foldl max x

/-- Device-array contents right after creation: create allocates without
defined contents (the source calls null() explicitly where zeroes are
needed), modelled as none. -/
def array_create (_n : Nat) : Option (List ℚ) := none

/-- Device-array contents after null(): every entry is the zero sentinel. -/
def array_null (n : Nat) : Option (List ℚ) := some (List.replicate n 0)

/-- The two per-sample score buffers of main. -/
structure ScoreBuffers where
  drecons : Option (List ℚ)
  dwrecons : Option (List ℚ)
  deriving DecidableEq

/-- Allocation of the score buffers, lines 130-134 of main: drecons is
created and then nulled; dwrecons is only created, with no null() call. -/
def alloc_score_buffers (n : Nat) : ScoreBuffers :=
  { drecons := array_null n, dwrecons := array_create n }

/-- A point cloud mesh as read and written by the export block: positions,
normals, and one scalar value per vertex. -/
structure Mesh where
  positions : List (ℚ × ℚ × ℚ)
  normals : List (ℚ × ℚ × ℚ)
  values : List ℚ
  deriving DecidableEq

/-- Observable events of one run of main: the summary lines printed to
stdout, PLY files written, and error messages printed to stderr. -/
inductive Ev where
  | timing : ℚ → Ev
  | gpuStats : ℚ → ℚ → ℚ → Ev
  | cpuStats : ℚ → ℚ → ℚ → Ev
  | lengthLine : ℚ → Ev
  | savedPly : String → Mesh → Ev
  | errMsg : String → Ev
  deriving DecidableEq

/-- Process exit status. -/
inductive ExitCode where
  | success
  | failure
  deriving DecidableEq

/-- Result of one run: the event trace in program order and the exit code. -/
structure RunResult where
  output : List Ev
  exit : ExitCode
  deriving DecidableEq

/-- Command-line configuration of main (struct Arguments); an empty string
for recon_cloud or obs_cloud means the option was not given. -/
structure Args where
  trajectory : String
  proxy_mesh : String
  proxy_cloud : String
  recon_cloud : String
  obs_cloud : String
  max_distance : ℚ
  target_recon : ℚ

/-- The external collaborators of main, fixed for one run: filesystem
queries, the three loaders, the visibility oracle, the pluggable ray-set
scoring curve, the export-time PLY reload, the measured kernel time and the
trajectory length functional. -/
structure World where
  dirExists : String → Bool
  fileExists : String → Bool
  sceneTraj : String → List Nat
  fileTraj : String → List Nat
  meshOk : String → Bool
  cloudVerts : String → Option Nat
  vis : Nat → Nat → Bool
  score : List Nat → ℚ
  loadPlyMesh : String → Option Mesh
  gpuTime : ℚ
  trajLen : List Nat → ℚ

/-- Trajectory loading, lines 104-111 of main: a directory is loaded as a
scene, a plain file as a serialized trajectory, anything else fails. -/
def load_trajectory (w : World) (path : String) : Option (List Nat) :=
  if w.dirExists path then some (w.sceneTraj path)
  else if w.fileExists path then some (w.fileTraj path)
  else none

/-- The summary block of main, lines 171-209: the single elapsed time of the
whole camera loop, the GPU-path average, minimum and maximum, the CPU-path
average, minimum and maximum, and the trajectory length, in print order. -/
def summary_report (gpuTime : ℚ) (values : List ℚ) (trajLen : ℚ) : List Ev :=
  [ Ev.timing gpuTime,
    Ev.gpuStats (reduction_sum values / (values.length : ℚ))
      (reduction_min values) (reduction_max values),
    Ev.cpuStats (cpu_accumulate values / (values.length : ℚ))
      (cpu_min values) (cpu_max values),
    Ev.lengthLine trajLen ]

/-- Per-sample observation counts as exported (num_rows cast to scalar). -/
def obs_counts (table : Nat → List Nat) (n : Nat) : List ℚ :=
  (List.range n).map (fun i => ((table i).length : ℚ))

/-- The export block of main, lines 211-247: if either export option was
given, the proxy cloud is reloaded as a PLY mesh (a failure there exits the
process with failure after the report was already printed); then the
reconstructability cloud and the observations cloud are written in this
order, each a copy of the reloaded mesh with only the vertex values
replaced. -/
def export_clouds (args : Args) (w : World) (recons : List ℚ)
    (table : Nat → List Nat) (n : Nat) (report : List Ev) : RunResult :=
  if args.recon_cloud = "" ∧ args.obs_cloud = "" then
    { output := report, exit := ExitCode.success }
  else
    match w.loadPlyMesh args.proxy_cloud with
    | none =>
      { output := report ++ [Ev.errMsg "Could not load mesh"],
        exit := ExitCode.failure }
    | some mesh =>
      { output := report
          ++ (if args.recon_cloud = "" then []
              else [Ev.savedPly args.recon_cloud
                { mesh with values := recons }])
          ++ (if args.obs_cloud = "" then []
              else [Ev.savedPly args.obs_cloud
                { mesh with values := obs_counts table n }]),
        exit := ExitCode.success }

/-- The raw-score array produced by the run: observation table built by the
camera loop, scored over the nulled drecons array. -/
def run_recons (w : World) (traj : List Nat) (n : Nat) : List ℚ :=
  evaluate_observation_rays w.score (camera_loop w.vis traj init_rows)
    (List.replicate n 0)

/-- The weighted-score array produced by the run. -/
def run_values (w : World) (target : ℚ) (traj : List Nat) (n : Nat) : List ℚ :=
  calculate_func_recons target (run_recons w traj n)

/-- The computation and reporting part of main once all inputs loaded. -/
def run_after_load (w : World) (args : Args) (traj : List Nat)
    (num_verts : Nat) : RunResult :=
  export_clouds args w (run_recons w traj num_verts)
    (camera_loop w.vis traj init_rows) num_verts
    (summary_report w.gpuTime (run_values w args.target_recon traj num_verts)
      (w.trajLen traj))

/-- Shallow embedding of main, lines 103-247: load the trajectory (fatal if
the path is neither a directory nor a file), load the proxy mesh as a BVH
tree and the proxy cloud (both loaders are collaborators modelled from the
spec as fatal on unreadable input), run the camera loop, score, rescale,
print the summary, and run the export block. -/
def runMain (w : World) (args : Args) : RunResult :=
  match load_trajectory w args.trajectory with
  | none =>
    { output := [Ev.errMsg "Could not load trajectory"],
      exit := ExitCode.failure }
  | some trajectory =>
    if w.meshOk args.proxy_mesh then
      match w.cloudVerts args.proxy_cloud with
      | none =>
        { output := [Ev.errMsg "Could not load point cloud"],
          exit := ExitCode.failure }
      | some num_verts => run_after_load w args trajectory num_verts
    else
      { output := [Ev.errMsg "Could not load mesh as BVH tree"],
        exit := ExitCode.failure }

/-- Number of timing figures in an event trace. -/
def timing_entries (out : List Ev) : Nat :=
  out.countP (fun e => match e with | Ev.timing _ => true | _ => false)

/-- A one-vertex proxy cloud mesh used as concrete test input. -/
def mesh0 : Mesh :=
  { positions := [(0, 0, 0)], normals := [(0, 0, 1)], values := [5] }

/-- A concrete base world: the trajectory path is a directory holding an
empty scene, the mesh and the one-vertex cloud load fine, nothing is ever
visible, the export-time reload yields mesh0. -/
def w0 : World :=
  { dirExists := fun _ => true
    fileExists := fun _ => false
    sceneTraj := fun _ => []
    fileTraj := fun _ => []
    meshOk := fun _ => true
    cloudVerts := fun _ => some 1
    vis := fun _ _ => false
    score := fun _ => 0
    loadPlyMesh := fun _ => some mesh0
    gpuTime := 1
    trajLen := fun _ => 0 }

/-- Concrete base arguments: all three inputs named, no export options. -/
def args0 : Args :=
  { trajectory := "traj"
    proxy_mesh := "mesh.ply"
    proxy_cloud := "cloud.ply"
    recon_cloud := ""
    obs_cloud := ""
    max_distance := 80
    target_recon := 3 }

/-- A world whose scene trajectory has two cameras. -/
def wTwoCams : World := { w0 with sceneTraj := fun _ => [0, 1] }

/-- A world where the trajectory path is neither a directory nor a file. -/
def wNoTraj : World := { w0 with dirExists := fun _ => false }

/-- A world where the export-time PLY reload of the proxy cloud fails. -/
def wNoPly : World := { w0 with loadPlyMesh := fun _ => none }

/-- Arguments requesting the reconstructability export only. -/
def argsRecon : Args := { args0 with recon_cloud := "recon.ply" }

/-- Arguments requesting both exports. -/
def argsBoth : Args :=
  { args0 with recon_cloud := "recon.ply", obs_cloud := "obs.ply" }

/-! Lemmas about the observation table. -/

/-- The camera loop acts on each row independently: the row of sample `i`
after the loop is the fold of the per-row step over the cameras. -/
theorem camera_loop_row (vis : Nat → Nat → Bool) (cams : List Nat) :
    ∀ (rows : Nat → List Nat) (i : Nat),
      camera_loop vis cams rows i = row_loop (fun c => vis i c) cams (rows i) := by
  induction cams with
  | nil => intro rows i; rfl
  | cons c cams ih =>
    intro rows i
    show camera_loop vis cams (update_observation_rays vis c rows) i = _
    rw [ih (update_observation_rays vis c rows) i]
    rfl

/-- One step of the row loop never grows a row past capacity. -/
theorem update_row_length_le (observes : Bool) (cam : Nat) (r : List Nat)
    (h : r.length ≤ max_cameras) :
    (update_row observes cam r).length ≤ max_cameras := by
  unfold update_row
  by_cases hc : observes = true ∧ r.length < max_cameras
  · rw [if_pos hc]
    simpa using hc.2
  · rw [if_neg hc]
    exact h

/-- The row loop preserves the capacity bound. -/
theorem row_loop_length_le (p : Nat → Bool) (cams : List Nat) :
    ∀ (r : List Nat), r.length ≤ max_cameras →
      (row_loop p cams r).length ≤ max_cameras := by
  induction cams with
  | nil => intro r h; exact h
  | cons c cams ih =>
    intro r h
    show (row_loop p cams (update_row (p c) c r)).length ≤ max_cameras
    exact ih _ (update_row_length_le (p c) c r h)

/-- The row loop starting below capacity retains exactly the first
observing cameras, up to the remaining capacity, in trajectory order. -/
theorem row_loop_eq_take_filter (p : Nat → Bool) (cams : List Nat) :
    ∀ (r : List Nat), r.length ≤ max_cameras →
      row_loop p cams r = r ++ (cams.filter p).take (max_cameras - r.length) := by
  induction cams with
  | nil => intro r _; simp [row_loop]
  | cons c cams ih =>
    intro r hr
    show row_loop p cams (update_row (p c) c r) = _
    by_cases hp : p c = true
    · by_cases hlen : r.length < max_cameras
      · have hstep : update_row (p c) c r = r ++ [c] := by
          unfold update_row
          exact if_pos ⟨hp, hlen⟩
        rw [hstep, ih (r ++ [c]) (by simpa using hlen)]
        have hfilter : (c :: cams).filter p = c :: cams.filter p := by
          simp [List.filter_cons, hp]
        have hpos : 0 < max_cameras - r.length := Nat.sub_pos_of_lt hlen
        have hsub : max_cameras - r.length
            = (max_cameras - (r ++ [c]).length) + 1 := by
          simp only [List.length_append, List.length_singleton]
          omega
        rw [hfilter, hsub, List.take_succ_cons, List.append_assoc,
          List.singleton_append]
      · have heq : r.length = max_cameras := le_antisymm hr (le_of_not_lt hlen)
        have hstep : update_row (p c) c r = r := by
          unfold update_row
          exact if_neg (fun hc => hlen hc.2)
        rw [hstep, ih r hr, heq]
        simp
    · have hstep : update_row (p c) c r = r := by
        unfold update_row
        exact if_neg (fun hc => hp hc.1)
      have hfilter : (c :: cams).filter p = cams.filter p := by
        simp [List.filter_cons, hp]
      rw [hstep, ih r hr, hfilter]

/-- C4: for every sample and every (prefix of the) camera loop, the number
of observation rays stored in that sample's row is at least 0 and at most
max_cameras (32), for any trajectory length; the capacity against which the
kernel checks is the fixed constant max_cameras, so the table never grows
past it. -/
theorem observation_count_bounds (vis : Nat → Nat → Bool) (cams : List Nat)
    (i : Nat) :
    0 ≤ (camera_loop vis cams init_rows i).length ∧
      (camera_loop vis cams init_rows i).length ≤ max_cameras := by
  constructor
  · exact Nat.zero_le _
  · rw [camera_loop_row]
    exact row_loop_length_le _ cams [] (by simp [max_cameras])

/-- C5: after the camera loop, the row of any sample holds exactly the ray
records of the first (at most) 32 cameras observing it, in trajectory
order; later observing cameras are silently dropped. The result is a pure
function of the visibility oracle and the trajectory, hence deterministic
and reproducible. -/
theorem observation_rows_first_32 (vis : Nat → Nat → Bool) (cams : List Nat)
    (i : Nat) :
    camera_loop vis cams init_rows i
      = (cams.filter (fun c => vis i c)).take max_cameras := by
  rw [camera_loop_row]
  have h := row_loop_eq_take_filter (fun c => vis i c) cams []
    (by simp [max_cameras])
  simpa using h

/-- C6: for a fixed positive target quality the weighted score is
monotonically non-decreasing in the raw score, and for a fixed non-negative
raw score it is non-increasing as the target quality increases. -/
theorem func_recon_monotone (t t2 r r2 : ℚ) (ht : 0 < t) (htt : t ≤ t2)
    (hr : 0 ≤ r) (hrr : r ≤ r2) :
    func_recon t r ≤ func_recon t r2 ∧ func_recon t2 r ≤ func_recon t r := by
  have ht2 : 0 < t2 := lt_of_lt_of_le ht htt
  constructor
  · exact min_le_min ((div_le_div_iff_of_pos_right ht).mpr hrr) le_rfl
  · refine min_le_min ?_ le_rfl
    rw [div_le_div_iff₀ ht2 ht]
    exact mul_le_mul_of_nonneg_left htt hr

/-- Witness for C6 at target 3 versus 4 and raw score 0 versus 1. -/
theorem func_recon_monotone_check :
    func_recon 3 0 ≤ func_recon 3 1 ∧ func_recon 4 0 ≤ func_recon 3 0 :=
  func_recon_monotone 3 4 0 1 (by norm_num) (by norm_num) le_rfl
    (by norm_num)

/-- C2 counterexample: the claim that both score buffers are initialized to
the zero sentinel fails already for one sample: main nulls drecons but only
creates dwrecons, whose contents after allocation are undefined. -/
theorem wrecons_not_nulled :
    ¬ ((alloc_score_buffers 1).drecons = some (List.replicate 1 0) ∧
       (alloc_score_buffers 1).dwrecons = some (List.replicate 1 0)) := by
  decide

/-- C2 amended: only the RawScore buffer is nulled to the zero sentinel
before the camera passes; the WeightedScore buffer is allocated without
initialization but the rescale pass writes every entry before any read, so a
sample with zero observations still ends with raw score 0 (the sentinel) and
weighted score equal to the rescaled sentinel, which is 0. -/
theorem zero_observation_minimum_scores (score : List Nat → ℚ)
    (table : Nat → List Nat) (target : ℚ) (n i : Nat)
    (hi : i < n) (h0 : table i = []) :
    (alloc_score_buffers n).drecons = some (List.replicate n 0) ∧
    (calculate_func_recons target
        (evaluate_observation_rays score table (List.replicate n 0))).length
      = n ∧
    (evaluate_observation_rays score table (List.replicate n 0))[i]?
      = some 0 ∧
    (calculate_func_recons target
        (evaluate_observation_rays score table (List.replicate n 0)))[i]?
      = some (func_recon target 0) ∧
    func_recon target 0 = 0 := by
  have hraw : (evaluate_observation_rays score table (List.replicate n 0))[i]?
      = some 0 := by
    simp [evaluate_observation_rays, List.getElem?_map, List.getElem?_range,
      hi, h0, List.getD, List.getElem?_replicate]
  refine ⟨rfl, ?_, hraw, ?_, ?_⟩
  · simp [calculate_func_recons, evaluate_observation_rays]
  · simp [calculate_func_recons, List.getElem?_map, hraw]
  · simp [func_recon, zero_div]

/-- Witness for C2 amended: one sample, empty observation row. -/
theorem zero_observation_minimum_scores_check :
    (alloc_score_buffers 1).drecons = some (List.replicate 1 0) ∧
    (calculate_func_recons 3
        (evaluate_observation_rays (fun _ => 7) (fun _ => [])
          (List.replicate 1 0))).length = 1 ∧
    (evaluate_observation_rays (fun _ => 7) (fun _ => [])
        (List.replicate 1 0))[0]? = some 0 ∧
    (calculate_func_recons 3
        (evaluate_observation_rays (fun _ => 7) (fun _ => [])
          (List.replicate 1 0)))[0]? = some (func_recon 3 0) ∧
    func_recon 3 0 = 0 :=
  zero_observation_minimum_scores (fun _ => 7) (fun _ => []) 3 1 0
    (by decide) rfl

/-- C7: when the trajectory path names neither an existing directory nor an
existing file, the run reports the error and exits with failure before any
computation: the whole observable behaviour is the single error message. -/
theorem missing_trajectory_fatal (w : World) (args : Args)
    (hd : w.dirExists args.trajectory = false)
    (hf : w.fileExists args.trajectory = false) :
    runMain w args
      = { output := [Ev.errMsg "Could not load trajectory"],
          exit := ExitCode.failure } := by
  have hload : load_trajectory w args.trajectory = none := by
    simp [load_trajectory, hd, hf]
  simp [runMain, hload]

/-- Witness for C7 at a world without the trajectory path. -/
theorem missing_trajectory_fatal_check :
    runMain wNoTraj args0
      = { output := [Ev.errMsg "Could not load trajectory"],
          exit := ExitCode.failure } :=
  missing_trajectory_fatal wNoTraj args0 rfl rfl

/-! Lemmas about the reporting and export paths of main. -/

/-- The rescale of the zero sentinel is zero for every target quality. -/
theorem func_recon_zero (t : ℚ) : func_recon t 0 = 0 := by
  simp [func_recon, zero_div]

/-- Folding addition from any seed shifts the zero-seeded fold by the seed. -/
theorem foldl_add_seed (l : List ℚ) :
    ∀ a : ℚ, l.foldl (fun x y => x + y) a
      = a + l.foldl (fun x y => x + y) 0 := by
  induction l with
  | nil => intro a; simp
  | cons x xs ih =>
    intro a
    simp only [List.foldl_cons]
    rw [ih (a + x), ih (0 + x)]
    ring

/-- The sequential accumulate of main is the true sum plus its 1.0 seed. -/
theorem cpu_accumulate_eq_sum_add_one (l : List ℚ) :
    cpu_accumulate l = reduction_sum l + 1 := by
  rw [cpu_accumulate, reduction_sum, foldl_add_seed l 1]
  ring

/-- Once all three inputs load, main is the computation and report stage. -/
theorem runMain_loaded (w : World) (args : Args) (traj : List Nat) (n : Nat)
    (h1 : load_trajectory w args.trajectory = some traj)
    (h2 : w.meshOk args.proxy_mesh = true)
    (h3 : w.cloudVerts args.proxy_cloud = some n) :
    runMain w args = run_after_load w args traj n := by
  unfold runMain
  simp [h1, h2, h3]

/-- Every line of the summary report survives into the final output trace,
whatever the export block then does. -/
theorem mem_export_clouds_output (args : Args) (w : World) (recons : List ℚ)
    (table : Nat → List Nat) (n : Nat) (report : List Ev) (e : Ev)
    (he : e ∈ report) :
    e ∈ (export_clouds args w recons table n report).output := by
  unfold export_clouds
  by_cases hb : args.recon_cloud = "" ∧ args.obs_cloud = ""
  · rw [if_pos hb]
    exact he
  · rw [if_neg hb]
    cases hm : w.loadPlyMesh args.proxy_cloud with
    | none => exact List.mem_append_left _ he
    | some mesh => exact List.mem_append_left _ (List.mem_append_left _ he)

/-- The weighted-score array of the concrete one-sample, no-camera run. -/
theorem run_values_w0 : run_values w0 args0.target_recon [] 1 = [0] := by
  have hraw : run_recons w0 [] 1 = [0] := by
    simp [run_recons, evaluate_observation_rays, camera_loop, init_rows, w0,
      List.range_succ]
  rw [run_values, hraw]
  simp [calculate_func_recons, func_recon_zero]

/-- C1: the two reduction paths do not agree on the sum-derived average. At
the failing input (a one-sample cloud with weighted-score array of size 1
holding 0) the GPU path reports average 0 while the CPU path reports 1,
because the sequential accumulate of main is seeded with the literal 1.0
instead of 0.0; in general the CPU sum is the true sum plus one, so the two
averages differ by 1/n for every array size n. -/
theorem gpu_cpu_average_divergence :
    (runMain w0 args0).output
      = [Ev.timing 1, Ev.gpuStats 0 0 0, Ev.cpuStats 1 0 0, Ev.lengthLine 0]
    ∧ ∀ l : List ℚ, cpu_accumulate l = reduction_sum l + 1 := by
  constructor
  · rw [runMain_loaded w0 args0 [] 1 rfl rfl rfl]
    unfold run_after_load export_clouds
    rw [if_pos ⟨rfl, rfl⟩, run_values_w0]
    show summary_report 1 [0] 0 = _
    norm_num [summary_report, reduction_sum, reduction_min, reduction_max,
      cpu_accumulate, cpu_min, cpu_max]
  · exact cpu_accumulate_eq_sum_add_one

/-- C3 counterexample: a run over a trajectory of two cameras prints exactly
one timing figure, the elapsed time of the whole camera loop, not one
processing time per camera. -/
theorem no_per_camera_timing :
    timing_entries (runMain wTwoCams args0).output = 1 ∧
    load_trajectory wTwoCams args0.trajectory = some [0, 1] := by
  refine ⟨?_, by decide⟩
  rw [runMain_loaded wTwoCams args0 [0, 1] 1 rfl rfl rfl]
  unfold run_after_load export_clouds
  rw [if_pos ⟨rfl, rfl⟩]
  simp [timing_entries, summary_report, List.countP_cons, List.countP_nil]

/-- C3 amended: every run whose inputs load prints the total processing time
of the whole camera loop (a single figure, not one per camera), the average,
minimum and maximum weighted score as computed by the GPU reduction path and
by the CPU scan path, and the total trajectory path length. -/
theorem summary_contents (w : World) (args : Args) (traj : List Nat) (n : Nat)
    (h1 : load_trajectory w args.trajectory = some traj)
    (h2 : w.meshOk args.proxy_mesh = true)
    (h3 : w.cloudVerts args.proxy_cloud = some n) :
    Ev.timing w.gpuTime ∈ (runMain w args).output ∧
    Ev.gpuStats
        (reduction_sum (run_values w args.target_recon traj n)
          / ((run_values w args.target_recon traj n).length : ℚ))
        (reduction_min (run_values w args.target_recon traj n))
        (reduction_max (run_values w args.target_recon traj n))
      ∈ (runMain w args).output ∧
    Ev.cpuStats
        (cpu_accumulate (run_values w args.target_recon traj n)
          / ((run_values w args.target_recon traj n).length : ℚ))
        (cpu_min (run_values w args.target_recon traj n))
        (cpu_max (run_values w args.target_recon traj n))
      ∈ (runMain w args).output ∧
    Ev.lengthLine (w.trajLen traj) ∈ (runMain w args).output := by
  rw [runMain_loaded w args traj n h1 h2 h3]
  unfold run_after_load
  refine ⟨?_, ?_, ?_, ?_⟩ <;>
    · apply mem_export_clouds_output
      simp [summary_report]

/-- Witness for C3 amended on the concrete one-sample run. -/
theorem summary_contents_check :
    Ev.lengthLine (w0.trajLen []) ∈ (runMain w0 args0).output :=
  (summary_contents w0 args0 [] 1 rfl rfl rfl).2.2.2

/-- C8: whichever export is requested writes a copy of the reloaded proxy
cloud whose positions and normals are unchanged and whose per-vertex values
are exactly the raw reconstructability scores (reconstructability export) or
the per-sample observation counts (observations export). -/
theorem export_scalar_values (w : World) (args : Args) (traj : List Nat)
    (n : Nat) (mesh : Mesh)
    (h1 : load_trajectory w args.trajectory = some traj)
    (h2 : w.meshOk args.proxy_mesh = true)
    (h3 : w.cloudVerts args.proxy_cloud = some n)
    (hm : w.loadPlyMesh args.proxy_cloud = some mesh) :
    (args.recon_cloud ≠ "" →
      Ev.savedPly args.recon_cloud
          { positions := mesh.positions, normals := mesh.normals,
            values := run_recons w traj n }
        ∈ (runMain w args).output) ∧
    (args.obs_cloud ≠ "" →
      Ev.savedPly args.obs_cloud
          { positions := mesh.positions, normals := mesh.normals,
            values := obs_counts (camera_loop w.vis traj init_rows) n }
        ∈ (runMain w args).output) := by
  rw [runMain_loaded w args traj n h1 h2 h3]
  unfold run_after_load export_clouds
  constructor
  · intro hr
    rw [if_neg (fun hb => hr hb.1)]
    simp only [hm]
    rw [if_neg hr]
    exact List.mem_append_left _
      (List.mem_append_right _ (List.mem_singleton_self _))
  · intro ho
    rw [if_neg (fun hb => ho hb.2)]
    simp only [hm]
    rw [if_neg ho]
    exact List.mem_append_right _ (List.mem_singleton_self _)

/-- Witness for C8: the reconstructability annotation of the concrete run
with both export options. -/
theorem export_scalar_values_check :
    Ev.savedPly argsBoth.recon_cloud
        { positions := mesh0.positions, normals := mesh0.normals,
          values := run_recons w0 [] 1 }
      ∈ (runMain w0 argsBoth).output :=
  (export_scalar_values w0 argsBoth [] 1 mesh0 rfl rfl rfl rfl).1
    (by decide)

/-- C9: when an export option was given but the proxy cloud fails to reload
as a PLY mesh, the run still prints the whole summary report first and only
then reports the error and exits with failure: the output is exactly the
report followed by the error message. -/
theorem export_failure_after_report (w : World) (args : Args)
    (traj : List Nat) (n : Nat)
    (h1 : load_trajectory w args.trajectory = some traj)
    (h2 : w.meshOk args.proxy_mesh = true)
    (h3 : w.cloudVerts args.proxy_cloud = some n)
    (hreq : ¬ (args.recon_cloud = "" ∧ args.obs_cloud = ""))
    (hm : w.loadPlyMesh args.proxy_cloud = none) :
    (runMain w args).exit = ExitCode.failure ∧
    (runMain w args).output
      = summary_report w.gpuTime (run_values w args.target_recon traj n)
          (w.trajLen traj)
        ++ [Ev.errMsg "Could not load mesh"] := by
  rw [runMain_loaded w args traj n h1 h2 h3]
  unfold run_after_load export_clouds
  rw [if_neg hreq, hm]
  exact ⟨rfl, rfl⟩

/-- Witness for C9 on the concrete run whose PLY reload fails. -/
theorem export_failure_after_report_check :
    (runMain wNoPly argsRecon).exit = ExitCode.failure :=
  (export_failure_after_report wNoPly argsRecon [] 1 rfl rfl rfl
    (by decide) rfl).1

/-- C10: the two export options are not mutually exclusive: when both are
given, both clouds are written from the same single evaluation, the
reconstructability cloud first with the raw scores as values, then the
observations cloud with the observation counts, and the run succeeds. -/
theorem both_exports_written (w : World) (args : Args) (traj : List Nat)
    (n : Nat) (mesh : Mesh)
    (h1 : load_trajectory w args.trajectory = some traj)
    (h2 : w.meshOk args.proxy_mesh = true)
    (h3 : w.cloudVerts args.proxy_cloud = some n)
    (hr : args.recon_cloud ≠ "") (ho : args.obs_cloud ≠ "")
    (hm : w.loadPlyMesh args.proxy_cloud = some mesh) :
    (runMain w args).output
      = summary_report w.gpuTime (run_values w args.target_recon traj n)
          (w.trajLen traj)
        ++ [Ev.savedPly args.recon_cloud
              { mesh with values := run_recons w traj n },
            Ev.savedPly args.obs_cloud
              { mesh with values :=
                  obs_counts (camera_loop w.vis traj init_rows) n }] ∧
    (runMain w args).exit = ExitCode.success := by
  rw [runMain_loaded w args traj n h1 h2 h3]
  unfold run_after_load export_clouds
  rw [if_neg (fun hb => hr hb.1)]
  simp only [hm]
  rw [if_neg hr, if_neg ho]
  constructor
  · rw [List.append_assoc]
    rfl
  · trivial

/-- Witness for C10 on the concrete run with both export options. -/
theorem both_exports_written_check :
    (runMain w0 argsBoth).exit = ExitCode.success :=
  (both_exports_written w0 argsBoth [] 1 mesh0 rfl rfl rfl (by decide)
    (by decide) rfl).2

end EvalTraj
